import Mathlib

/-!
Verification development for the clrInsights analytical-agent workflow.

The Lean definitions below are a shallow embedding of the program:

* `Json`, `jsonLoads` model the JSON values and the strict stdlib JSON
  parser (`json.loads`) that the code relies on.  Numeric literals are
  kept as lexemes (strings) so that no floating-point arithmetic enters
  the embedding; none of the verified properties inspects numeric values.
* `_parse_llm_json` is the resilient response parser of
  `src/agent/nodes.py`, with each of its textual recovery transforms
  (fence stripping, triple-quote conversion, brace extraction,
  control-character repair, trailing-comma removal, quote substitution,
  regex field extraction) translated to executable character-list
  functions.
* `AgentState`, the node functions and the routing functions embed the
  LangGraph workflow of `src/agent/nodes.py` / `src/agent/graph.py`;
  external collaborators (the LLM backends, the DuckDB engine, the chart
  subprocess) are supplied as oracle values, mirroring the values their
  Python counterparts return.
* `_sanitize_error` / `execute_chart_code` embed the result handling of
  `src/sandbox/chart_executor.py`, with the subprocess outcome supplied
  as an oracle value.
* `GroqClient.generate` embeds the retry/fallback loop of
  `src/llm/groq.py` and `src/llm/base.py`.
-/

namespace ClrInsights

/-! ## Python-style character classes and string helpers -/

/-- Python `str.strip()` whitespace (ASCII part; the source only ever
strips ASCII model output). -/
def isPyWs (c : Char) : Bool :=
  c = ' ' || c = '\t' || c = '\n' || c = '\r' || c = '\x0b' || c = '\x0c'

/-- Python regex `\s` (ASCII part), same set as `isPyWs`. -/
def isRegexWs (c : Char) : Bool := isPyWs c

/-- JSON whitespace accepted by `json.loads` (space, tab, newline, CR). -/
def isJsonWs (c : Char) : Bool :=
  c = ' ' || c = '\t' || c = '\n' || c = '\r'

def dropWhileWs (cs : List Char) : List Char := cs.dropWhile isPyWs

/-- Python `str.strip()` on a character list. -/
def pyStripList (cs : List Char) : List Char :=
  ((cs.dropWhile isPyWs).reverse.dropWhile isPyWs).reverse

def pyStrip (s : String) : String := ⟨pyStripList s.toList⟩

/-- `listStartsWith p cs` : `cs` begins with the pattern `p`. -/
def listStartsWith : List Char → List Char → Bool
  | [], _ => true
  | _ :: _, [] => false
  | p :: ps, c :: cs => p = c && listStartsWith ps cs

/-- Drop a leading pattern when present (Python `str.removeprefix`). -/
def pyDropPre (p : List Char) (cs : List Char) : List Char :=
  if listStartsWith p cs then cs.drop p.length else cs

/-- Drop a trailing pattern when present (Python `str.removesuffix`). -/
def pyDropSuf (p : List Char) (cs : List Char) : List Char :=
  if listStartsWith p.reverse cs.reverse then (cs.reverse.drop p.length).reverse else cs

/-- Substring test on character lists (Python `in`). -/
def listContainsSub (needle : List Char) : List Char → Bool
  | [] => needle.isEmpty
  | c :: cs => listStartsWith needle (c :: cs) || listContainsSub needle cs

def strContainsSub (needle s : String) : Bool :=
  listContainsSub needle.toList s.toList

/-- Python `str.upper()` (ASCII part; the provider tags are ASCII). -/
def pyUpper (s : String) : String := ⟨s.toList.map Char.toUpper⟩

/-- Truthiness of a Python string. -/
def truthyStr (s : String) : Bool := !(s == "")

/-- Truthiness of an optional Python string (`None` and `''` are falsy). -/
def truthyOptStr : Option String → Bool
  | none => false
  | some s => truthyStr s

/-! ## JSON values and the strict `json.loads` parser

Values are modelled with numeric literals kept as lexemes so that no
floating-point number enters the development.  Objects store their
fields in insertion order with Python `dict` semantics (a duplicate key
overwrites the value in place). -/

inductive Json where
  | null
  | bool (b : Bool)
  | num (lexeme : String)
  | str (s : String)
  | arr (elems : List Json)
  | obj (fields : List (String × Json))

/-- Does a numeric lexeme denote zero (all mantissa digits `0`)?
`NaN` and `Infinity` lexemes are non-zero. -/
def numLexemeIsZero (lx : String) : Bool :=
  let mantissa := lx.toList.takeWhile (fun c => c ≠ 'e' && c ≠ 'E')
  let digits := mantissa.filter Char.isDigit
  !digits.isEmpty && digits.all (· = '0')

/-- Python truthiness of a JSON-decoded value. -/
def Json.truthy : Json → Bool
  | .null => false
  | .bool b => b
  | .num lx => !numLexemeIsZero lx
  | .str s => truthyStr s
  | .arr l => !l.isEmpty
  | .obj l => !l.isEmpty

/-- Python `dict.get` on an object; `none` for a missing key.
Calling `.get` on a non-dict raises `AttributeError` in Python; the
embedding returns `none` there, which the workflow claims never reach
(the one reachable case, `plan` itself, is handled explicitly in
`analyze_query_node`). -/
def Json.pyGet : Json → String → Option Json
  | .obj fields, k => (fields.find? (fun f => f.1 == k)).map (·.2)
  | _, _ => none

def Json.getD (j : Json) (k : String) (d : Json) : Json := (j.pyGet k).getD d

/-- Elements of a JSON array (`[]` for non-arrays; see the note on
dynamic-typing corner cases at `analyze_query_node`). -/
def Json.elems : Json → List Json
  | .arr l => l
  | _ => []

/-- Python `dict` insertion: overwrite in place or append. -/
def dictInsert (fields : List (String × Json)) (k : String) (v : Json) :
    List (String × Json) :=
  if fields.any (fun f => f.1 == k) then
    fields.map (fun f => if f.1 == k then (k, v) else f)
  else fields ++ [(k, v)]

def pyDict (pairs : List (String × Json)) : List (String × Json) :=
  pairs.foldl (fun acc kv => dictInsert acc kv.1 kv.2) []

/-- Python `type(x).__name__` for decoded JSON values (used in the
`AttributeError` message when planning output is not an object). -/
def Json.pyTypeName : Json → String
  | .null => "NoneType"
  | .bool _ => "bool"
  | .num lx =>
    if lx.toList.any (fun c => c = '.' || c = 'e' || c = 'E') ||
        strContainsSub "n" lx || strContainsSub "N" lx then "float" else "int"
  | .str _ => "str"
  | .arr _ => "list"
  | .obj _ => "dict"

def skipWs (cs : List Char) : List Char := cs.dropWhile isJsonWs

/-- Hex digit test (the stdlib decoder accepts upper and lower case). -/
def isHexDig (c : Char) : Bool :=
  c.isDigit || ('a' ≤ c && c ≤ 'f') || ('A' ≤ c && c ≤ 'F')

/-- Numeric value of a hex digit character. -/
def hexVal (c : Char) : Nat :=
  if c.isDigit then c.toNat - '0'.toNat
  else if 'a' ≤ c && c ≤ 'f' then c.toNat - 'a'.toNat + 10
  else if 'A' ≤ c && c ≤ 'F' then c.toNat - 'A'.toNat + 10
  else 0

/-- Decode the body of a JSON string literal (opening quote already
consumed).  Strict mode: raw control characters are rejected, only the
official escapes are accepted.  A surrogate pair of `\uXXXX` escapes is
combined; a lone surrogate, which Python keeps as a surrogate code
unit, is mapped to `\u0000` since Lean `Char` excludes surrogates (no
verified property depends on such inputs). -/
def pStr (acc : List Char) : List Char → Option (String × List Char)
  | [] => none
  | '"' :: rest => some (⟨acc.reverse⟩, rest)
  | '\\' :: rest =>
    match rest with
    | [] => none
    | '"' :: r => pStr ('"' :: acc) r
    | '\\' :: r => pStr ('\\' :: acc) r
    | '/' :: r => pStr ('/' :: acc) r
    | 'b' :: r => pStr ('\x08' :: acc) r
    | 'f' :: r => pStr ('\x0c' :: acc) r
    | 'n' :: r => pStr ('\n' :: acc) r
    | 'r' :: r => pStr ('\r' :: acc) r
    | 't' :: r => pStr ('\t' :: acc) r
    | 'u' :: h1 :: h2 :: h3 :: h4 :: '\\' :: 'u' :: g1 :: g2 :: g3 :: g4 :: r2 =>
      if isHexDig h1 && isHexDig h2 && isHexDig h3 && isHexDig h4 then
        let n := ((hexVal h1 * 16 + hexVal h2) * 16 + hexVal h3) * 16 + hexVal h4
        if isHexDig g1 && isHexDig g2 && isHexDig g3 && isHexDig g4 then
          let m := ((hexVal g1 * 16 + hexVal g2) * 16 + hexVal g3) * 16 + hexVal g4
          if 0xD800 ≤ n && n ≤ 0xDBFF && 0xDC00 ≤ m && m ≤ 0xDFFF then
            pStr (Char.ofNat (0x10000 + (n - 0xD800) * 1024 + (m - 0xDC00)) :: acc) r2
          else pStr (Char.ofNat m :: Char.ofNat n :: acc) r2
        else none
      else none
    | 'u' :: h1 :: h2 :: h3 :: h4 :: r =>
      if isHexDig h1 && isHexDig h2 && isHexDig h3 && isHexDig h4 then
        let n := ((hexVal h1 * 16 + hexVal h2) * 16 + hexVal h3) * 16 + hexVal h4
        pStr (Char.ofNat n :: acc) r
      else none
    | _ :: _ => none
  | c :: rest => if c.toNat < 0x20 then none else pStr (c :: acc) rest

/-- Match the stdlib JSON number regex
`-?(0|[1-9]\d*)(\.\d+)?([eE][-+]?\d+)?` at the head of `cs`; return the
lexeme and the remainder. -/
def pNum (cs : List Char) : Option (String × List Char) :=
  let (sign, cs1) :=
    match cs with
    | '-' :: r => (['-'], r)
    | _ => (([] : List Char), cs)
  match cs1 with
  | c :: r =>
    if c = '0' then numFrac (sign ++ [c]) r
    else if c.isDigit then
      let ds := r.takeWhile Char.isDigit
      numFrac (sign ++ [c] ++ ds) (r.drop ds.length)
    else none
  | [] => none
where
  numFrac (lex : List Char) (cs : List Char) : Option (String × List Char) :=
    let (lex1, cs1) :=
      match cs with
      | '.' :: r =>
        let ds := r.takeWhile Char.isDigit
        if ds.isEmpty then (lex, cs) else (lex ++ ['.'] ++ ds, r.drop ds.length)
      | _ => (lex, cs)
    let (lex2, cs2) :=
      match cs1 with
      | e :: r =>
        if e = 'e' || e = 'E' then
          let (sg, r1) :=
            match r with
            | '+' :: r2 => (['+'], r2)
            | '-' :: r2 => (['-'], r2)
            | _ => (([] : List Char), r)
          let ds := r1.takeWhile Char.isDigit
          if ds.isEmpty then (lex1, cs1) else (lex1 ++ [e] ++ sg ++ ds, r1.drop ds.length)
        else (lex1, cs1)
      | [] => (lex1, cs1)
    some (⟨lex2⟩, cs2)

inductive PTask where
  | val
  | arrItems
  | objItems

inductive PRes where
  | one (j : Json)
  | many (l : List Json)
  | fields (l : List (String × Json))

/-- Fueled recursive-descent JSON parser mirroring the stdlib scanner:
string, object, array, `null`/`true`/`false`, number, then the
non-standard `NaN` / `Infinity` / `-Infinity` constants. -/
def pj : Nat → PTask → List Char → Option (PRes × List Char)
  | 0, _, _ => none
  | fuel + 1, .val, cs0 =>
    let cs := skipWs cs0
    match cs with
    | '"' :: rest => (pStr [] rest).map (fun p => (.one (.str p.1), p.2))
    | '{' :: rest =>
      match skipWs rest with
      | '}' :: rest2 => some (.one (.obj []), rest2)
      | _ =>
        match pj fuel .objItems rest with
        | some (.fields l, rest2) => some (.one (.obj (pyDict l)), rest2)
        | _ => none
    | '[' :: rest =>
      match skipWs rest with
      | ']' :: rest2 => some (.one (.arr []), rest2)
      | _ =>
        match pj fuel .arrItems rest with
        | some (.many l, rest2) => some (.one (.arr l), rest2)
        | _ => none
    | _ =>
      if listStartsWith "null".toList cs then some (.one .null, cs.drop 4)
      else if listStartsWith "true".toList cs then some (.one (.bool true), cs.drop 4)
      else if listStartsWith "false".toList cs then some (.one (.bool false), cs.drop 5)
      else
        match pNum cs with
        | some (lex, rest) => some (.one (.num lex), rest)
        | none =>
          if listStartsWith "NaN".toList cs then some (.one (.num "NaN"), cs.drop 3)
          else if listStartsWith "Infinity".toList cs then
            some (.one (.num "Infinity"), cs.drop 8)
          else if listStartsWith "-Infinity".toList cs then
            some (.one (.num "-Infinity"), cs.drop 9)
          else none
  | fuel + 1, .arrItems, cs =>
    match pj fuel .val cs with
    | some (.one v, rest) =>
      match skipWs rest with
      | ',' :: rest2 =>
        match pj fuel .arrItems rest2 with
        | some (.many l, rest3) => some (.many (v :: l), rest3)
        | _ => none
      | ']' :: rest2 => some (.many [v], rest2)
      | _ => none
    | _ => none
  | fuel + 1, .objItems, cs =>
    match skipWs cs with
    | '"' :: rest =>
      match pStr [] rest with
      | some (k, rest1) =>
        match skipWs rest1 with
        | ':' :: rest2 =>
          match pj fuel .val rest2 with
          | some (.one v, rest3) =>
            match skipWs rest3 with
            | ',' :: rest4 =>
              match pj fuel .objItems rest4 with
              | some (.fields l, rest5) => some (.fields ((k, v) :: l), rest5)
              | _ => none
            | '\x7d' :: rest4 => some (.fields [(k, v)], rest4)
            | _ => none
          | _ => none
        | _ => none
      | none => none
    | _ => none

/-- `json.loads`: parse a complete document, requiring only whitespace
after the top-level value.  `none` models a raised `JSONDecodeError`. -/
def jsonLoads (s : String) : Option Json :=
  let cs := s.toList
  match pj (cs.length + 1) .val cs with
  | some (.one j, rest) => if (skipWs rest).isEmpty then some j else none
  | _ => none


/-! ## The resilient response parser `_parse_llm_json`

Each textual recovery transform of `src/agent/nodes.py` is translated
to an executable character-list function; the regex substitutions are
rendered by the scanning behaviour of `re.sub` / `re.findall`
(left-to-right, non-overlapping, continuing after each match). -/

/-- Split at the first occurrence of `pat`: the characters before it
and the characters after it. -/
def findSub (pat : List Char) : List Char → Option (List Char × List Char)
  | [] => if pat.isEmpty then some ([], []) else none
  | c :: cs =>
    if listStartsWith pat (c :: cs) then some ([], (c :: cs).drop pat.length)
    else (findSub pat cs).map (fun p => (c :: p.1, p.2))

/-- Strip one leading code fence and the whitespace after it, as the
anchored substitution of three backticks plus optional `json` does. -/
def stripFenceStart (cs : List Char) : List Char :=
  if listStartsWith "```json".toList cs then (cs.drop 7).dropWhile isRegexWs
  else if listStartsWith "```".toList cs then (cs.drop 3).dropWhile isRegexWs
  else cs

/-- Strip one trailing code fence and the whitespace before it (the
input never ends in whitespace here, so the `$` anchor is the end of
the string). -/
def stripFenceEnd (cs : List Char) : List Char :=
  let r := cs.reverse
  if listStartsWith "```".toList r then ((r.drop 3).dropWhile isRegexWs).reverse
  else cs

/-- Strip regex whitespace from both ends (the whitespace groups
around the triple-quoted content). -/
def stripRegexWs (cs : List Char) : List Char :=
  ((cs.dropWhile isRegexWs).reverse.dropWhile isRegexWs).reverse

/-- Body transform of the triple-quote substitution: newlines become
spaces, then the delimiter character is escaped. -/
def tripleBody (q : Char) (cs : List Char) : List Char :=
  (stripRegexWs cs).foldr
    (fun c out =>
      if c = '\n' || c = '\r' then ' ' :: out
      else if c = q then '\\' :: c :: out
      else c :: out) []

/-- One substitution pass for a triple-quote delimiter: replace each
triple-quoted segment by a double-quoted single-line string, scanning
left to right and continuing after each replacement. -/
def tripleScan (q : Char) : Nat → List Char → List Char
  | 0, cs => cs
  | fuel + 1, cs =>
    match findSub [q, q, q] cs with
    | none => cs
    | some (before, after) =>
      match findSub [q, q, q] after with
      | none => cs
      | some (content, rest) =>
        before ++ '"' :: tripleBody q content ++ '"' :: tripleScan q fuel rest

/-- Convert Python-style triple-quoted strings (triple double-quotes
first, then triple single-quotes) to double-quoted strings. -/
def fixTriples (cs : List Char) : List Char :=
  let d := tripleScan '"' (cs.length + 1) cs
  tripleScan '\'' (d.length + 1) d

/-- The greedy brace search of the parser: the span from the first
opening brace to the last closing brace after it, or the input
unchanged when absent. -/
def extractBraces (cs : List Char) : List Char :=
  match findSub ['{'] cs with
  | none => cs
  | some (_, after) =>
    match findSub ['}'] after.reverse with
    | none => cs
    | some (_, revBefore) => '{' :: (revBefore.reverse ++ ['}'])

/-- Characters removed by the control-character substitution:
`\x00`-`\x08`, `\x0b`, `\x0c`, `\x0e`-`\x1f`, `\x7f`. -/
def isStrippedCtrl (c : Char) : Bool :=
  c.toNat < 0x09 || c.toNat = 0x0b || c.toNat = 0x0c ||
    (0x0e ≤ c.toNat && c.toNat ≤ 0x1f) || c.toNat = 0x7f

def removeCtrl (cs : List Char) : List Char :=
  cs.map (fun c => if isStrippedCtrl c then ' ' else c)

/-- The three sequential `str.replace` calls turning CRLF, CR and LF
into single spaces. -/
def replaceNewlines : List Char → List Char
  | [] => []
  | '\r' :: '\n' :: rest => ' ' :: replaceNewlines rest
  | '\r' :: rest => ' ' :: replaceNewlines rest
  | '\n' :: rest => ' ' :: replaceNewlines rest
  | c :: rest => c :: replaceNewlines rest

/-- Drop a comma (and the whitespace after it) that directly precedes
a closing brace or bracket, scanning left to right. -/
def removeTrailingCommas : Nat → List Char → List Char
  | 0, cs => cs
  | _ + 1, [] => []
  | fuel + 1, ',' :: rest =>
    match rest.dropWhile isRegexWs with
    | b :: rest3 =>
      if b = '}' || b = ']' then b :: removeTrailingCommas fuel rest3
      else ',' :: removeTrailingCommas fuel rest
    | [] => ',' :: removeTrailingCommas fuel rest
  | fuel + 1, c :: rest => c :: removeTrailingCommas fuel rest

/-- Collapse runs of two or more spaces into one. -/
def collapseSpaces : Nat → List Char → List Char
  | 0, cs => cs
  | _ + 1, [] => []
  | fuel + 1, ' ' :: rest =>
    if rest.head? = some ' ' then ' ' :: collapseSpaces fuel (rest.dropWhile (· = ' '))
    else ' ' :: collapseSpaces fuel rest
  | fuel + 1, c :: rest => c :: collapseSpaces fuel rest

def swapQuotes (cs : List Char) : List Char :=
  cs.map (fun c => if c = '\'' then '"' else c)

/-- The greedy string-body loop of the field pattern followed by the
closing quote; captures the body with its escapes kept raw, exactly as
`re.findall` returns the group (a backslash cannot escape a literal
newline because the dot of the pattern does not match one). -/
def munchBody (acc : List Char) : List Char → Option (String × List Char)
  | [] => none
  | '"' :: rest => some (⟨acc.reverse⟩, rest)
  | '\\' :: c :: rest =>
    if c = '\n' then none else munchBody (c :: '\\' :: acc) rest
  | ['\\'] => none
  | c :: rest => munchBody (c :: acc) rest

/-- Try the quoted-key field pattern at the head of `cs`. -/
def matchFieldAt (key : List Char) (cs : List Char) : Option (String × List Char) :=
  if listStartsWith ('"' :: key ++ ['"']) cs then
    match (cs.drop (key.length + 2)).dropWhile isRegexWs with
    | ':' :: cs3 =>
      match cs3.dropWhile isRegexWs with
      | '"' :: cs5 => munchBody [] cs5
      | _ => none
    | _ => none
  else none

/-- `re.findall` of the field pattern: scan left to right, continue
after each match. -/
def fieldFindAll (key : List Char) : Nat → List Char → List String
  | 0, _ => []
  | _ + 1, [] => []
  | fuel + 1, c :: cs =>
    match matchFieldAt key (c :: cs) with
    | some (cap, rest) => cap :: fieldFindAll key fuel rest
    | none => fieldFindAll key fuel cs

/-- `re.search` of the field pattern: the first match only. -/
def fieldFindFirst (key : List Char) : Nat → List Char → Option String
  | 0, _ => none
  | _ + 1, [] => none
  | fuel + 1, c :: cs =>
    match matchFieldAt key (c :: cs) with
    | some (cap, _) => some cap
    | none => fieldFindFirst key fuel cs

/-- Last-resort extraction: pull the `sql_query` / `description` /
`reasoning` fields out of the text by regex and rebuild a minimal plan
object; `none` when no step was found. -/
def regexExtract (fixed : List Char) : Option Json :=
  let n := fixed.length + 1
  let sqls := fieldFindAll "sql_query".toList n fixed
  let descs := fieldFindAll "description".toList n fixed
  let steps := sqls.enum.map (fun p =>
    let desc := descs.getD p.1 ("Step " ++ toString (p.1 + 1))
    Json.obj [("description", .str desc), ("sql_query", .str p.2)])
  let reasoning := (fieldFindFirst "reasoning".toList n fixed).getD ""
  if steps.isEmpty then none
  else some (.obj [("steps", .arr steps), ("reasoning", .str reasoning)])

/-- Stage 1 preprocessing: strip fences, strip whitespace, convert
triple-quoted segments. -/
def parseNormalize (raw : String) : List Char :=
  let cleaned := pyStripList raw.toList
  let cleaned := stripFenceEnd (stripFenceStart cleaned)
  let cleaned := pyStripList cleaned
  fixTriples cleaned

/-- Character-level repair: strip control characters, collapse literal
newlines, drop trailing commas, collapse runs of spaces. -/
def parseRepairText (cs : List Char) : List Char :=
  let fixed := removeCtrl cs
  let fixed := replaceNewlines fixed
  let fixed := removeTrailingCommas (fixed.length + 1) fixed
  collapseSpaces (fixed.length + 1) fixed

/-- The guard of the single-quote substitution: the text contains a
single quote and no double quote among its first five characters. -/
def sqGuard (fixed : List Char) : Bool :=
  listContainsSub ['\''] fixed && !(fixed.take 5).any (· = '"')

/-- The Python `str(e)` rendering of the `JSONDecodeError` raised when
nothing worked (`pos = 0`, hence `line 1 column 1`). -/
def parseErrStr (raw : String) : String :=
  "Could not parse LLM response as JSON. Raw (first 300 chars): " ++
    ⟨raw.toList.take 300⟩ ++ ": line 1 column 1 (char 0)"

/-- `_parse_llm_json` of `src/agent/nodes.py`, with the Python
`try/except` fall-through rendered as nested matches. -/
def _parse_llm_json (raw : String) : Except String Json :=
  let cleaned := parseNormalize raw
  let cleaned := extractBraces cleaned
  match jsonLoads ⟨cleaned⟩ with
  | some j => .ok j
  | none =>
    let fixed := parseRepairText cleaned
    match jsonLoads ⟨fixed⟩ with
    | some j => .ok j
    | none =>
      match (if sqGuard fixed then jsonLoads ⟨swapQuotes fixed⟩ else none) with
      | some j => .ok j
      | none =>
        match regexExtract fixed with
        | some j => .ok j
        | none => .error (parseErrStr raw)

/-! Spec-side view of the parser (for the pipeline claim): an ordered
list of recovery stages, accepted first-success.  Stage 1 is the
content-preserving normalization applied before every parse attempt;
stages 2 to 5 are the data-yielding attempts in the order the spec
lists them. -/

def parseStages (raw : String) : List (Option Json) :=
  let normalized := parseNormalize raw
  let braced := extractBraces normalized
  let repaired := parseRepairText braced
  [jsonLoads ⟨braced⟩,
   jsonLoads ⟨repaired⟩,
   (if sqGuard repaired then jsonLoads ⟨swapQuotes repaired⟩ else none),
   regexExtract repaired]

def firstSome : List (Option Json) → Option Json
  | [] => none
  | some j :: _ => some j
  | none :: rest => firstSome rest


/-! ## Sandbox result handling (`src/sandbox/chart_executor.py`)

The subprocess itself is external; its outcome (exit code, captured
streams, timeout, or an unexpected host exception) is supplied as a
value and the result handling of `execute_chart_code` is embedded. -/

/-- Characters at which Python `str.splitlines` breaks (ASCII part). -/
def isLineBound (c : Char) : Bool :=
  c = '\n' || c = '\r' || c = '\x0b' || c = '\x0c' ||
    c = '\x1c' || c = '\x1d' || c = '\x1e'

def pySplitlinesAux (acc : List Char) : List Char → List (List Char)
  | [] => if acc.isEmpty then [] else [acc.reverse]
  | '\r' :: '\n' :: rest => acc.reverse :: pySplitlinesAux [] rest
  | c :: rest =>
    if isLineBound c then acc.reverse :: pySplitlinesAux [] rest
    else pySplitlinesAux (c :: acc) rest

def pySplitlines (cs : List Char) : List (List Char) := pySplitlinesAux [] cs

def isUpperAZ (c : Char) : Bool := 'A' ≤ c && c ≤ 'Z'

def isWordChar (c : Char) : Bool :=
  c.isAlpha || c.isDigit || c = '_'

/-- Does the text begin with `Error`, `Exception` or `Warning`? -/
def kwAt (cs : List Char) : Bool :=
  listStartsWith "Error".toList cs || listStartsWith "Exception".toList cs ||
    listStartsWith "Warning".toList cs

/-- After the initial capital: skip word characters until one of the
exception keywords begins (the backtracking of the word-star group). -/
def errScan : List Char → Bool
  | [] => false
  | c :: rest => kwAt (c :: rest) || (isWordChar c && errScan rest)

/-- `re.match` of the exception-line pattern: a capital letter, word
characters, then `Error`, `Exception` or `Warning`. -/
def errKindLine (cs : List Char) : Bool :=
  match cs with
  | c :: rest => isUpperAZ c && errScan rest
  | [] => false

/-- Try the `File "…"` fragment pattern at the head of the text. -/
def matchFileRefAt (cs : List Char) : Option (List Char) :=
  if listStartsWith "File \"".toList cs then
    let cs2 := cs.drop 6
    let body := cs2.takeWhile (· ≠ '"')
    match cs2.drop body.length with
    | '"' :: rest => some rest
    | _ => none
  else none

/-- Replace every `File "…"` fragment by `File "<chart>"`. -/
def scrubFileRefs : Nat → List Char → List Char
  | 0, cs => cs
  | _ + 1, [] => []
  | fuel + 1, c :: cs =>
    match matchFileRefAt (c :: cs) with
    | some rest => "File \"<chart>\"".toList ++ scrubFileRefs fuel rest
    | none => c :: scrubFileRefs fuel cs

/-- `_sanitize_error` of `src/sandbox/chart_executor.py`. -/
def _sanitize_error (stderr : String) : String :=
  let lines := pySplitlines (pyStripList stderr.toList)
  if lines.isEmpty then "Unknown chart error"
  else
    match lines.reverse.find? (fun l => errKindLine (pyStripList l)) with
    | some l => ⟨(pyStripList l).take 300⟩
    | none =>
      let last := pyStripList ((lines.getLast?).getD [])
      let scrubbed := scrubFileRefs (last.length + 1) last
      if scrubbed.isEmpty then "Chart generation failed" else ⟨scrubbed.take 300⟩

/-- Outcome of the chart subprocess, as observed by the parent. -/
inductive SubprocOutcome where
  | completed (returncode : Int) (stdout : String) (stderr : String)
  | timedOut
  | raised (msg : String)

structure ChartResult where
  images : List String
  error : Option String
deriving DecidableEq

/-- The string payload of a decoded image entry (the child always
emits strings; a non-string entry is rendered empty, unreachable in
the verified claims). -/
def jsonStrVal : Json → String
  | .str s => s
  | _ => ""

/-- Result handling of `execute_chart_code`: marker extraction on
success, sanitized errors on non-zero exit / missing marker, fixed
messages on timeout and host exceptions.  The exact `JSONDecodeError`
text of a malformed marker payload is not modelled (that branch is
outside the verified claims). -/
def execute_chart_code (outcome : SubprocOutcome) (timeout : Nat) : ChartResult :=
  match outcome with
  | .completed rc stdout stderr =>
    if rc ≠ 0 then
      { images := [], error := some ("Chart code failed: " ++ _sanitize_error stderr) }
    else
      match findSub "__CHART_OUTPUT__".toList stdout.toList with
      | some (_, afterMarker) =>
        match jsonLoads ⟨pyStripList afterMarker⟩ with
        | some out =>
          { images := (out.getD "images" (.arr [])).elems.map jsonStrVal, error := none }
        | none =>
          { images := [], error := some "Chart executor error: malformed chart output" }
      | none =>
        { images := [], error := some ("No chart output produced. " ++ _sanitize_error stderr) }
  | .timedOut =>
    { images := [], error := some ("Chart generation timed out after " ++ toString timeout ++ "s") }
  | .raised m =>
    { images := [], error := some ("Chart executor error: " ++ m) }

/-! ## The LLM client with retry and fallback
(`src/llm/groq.py`, `src/llm/base.py`)

The backend call is an oracle indexed by the attempt number and the
model it would be issued against; `.error` models a raised exception
with its message. -/

structure GroqClient where
  model_name : String
  fallback_model : Option String
  max_retries : Nat
  current_model : String
deriving DecidableEq

/-- `BaseLLMClient.switch_to_fallback`. -/
def switch_to_fallback (c : GroqClient) : Bool × GroqClient :=
  if truthyOptStr c.fallback_model && !(c.current_model == c.fallback_model.getD "") then
    (true, { c with current_model := c.fallback_model.getD "" })
  else (false, c)

/-- `BaseLLMClient.reset_model`. -/
def reset_model (c : GroqClient) : GroqClient :=
  { c with current_model := c.model_name }

deriving instance DecidableEq for Except

structure GenResult where
  outcome : Except String String
  client : GroqClient
  sleeps : List Nat
  attempts : Nat
deriving DecidableEq

/-- The retry loop of `GroqClient.generate`.  `sleeps` records the
backoff durations in order; `attempts` counts backend calls.  The fuel
only bounds the loop syntactically: `max_retries + 2` iterations always
suffice, so the fuel-exhausted branch is unreachable from `generate`. -/
def genLoop (oracle : Nat → String → Except String String) (mr : Nat) :
    Nat → Nat → GroqClient → String → List Nat → Nat → GenResult
  | 0, _, c, lastErr, sleeps, attempts =>
    ⟨.error ("Groq generation failed after " ++ toString mr ++ " retries: " ++ lastErr),
      c, sleeps, attempts⟩
  | fuel + 1, retries, c, lastErr, sleeps, attempts =>
    if retries ≤ mr then
      match oracle attempts c.current_model with
      | .ok text => ⟨.ok text, c, sleeps, attempts + 1⟩
      | .error e =>
        let rtr := retries + 1
        let att := attempts + 1
        if rtr = 1 then
          match switch_to_fallback c with
          | (true, c1) => genLoop oracle mr fuel rtr c1 e sleeps att
          | (false, c1) =>
            if rtr ≤ mr then genLoop oracle mr fuel rtr c1 e (sleeps ++ [2 ^ rtr]) att
            else genLoop oracle mr fuel rtr c1 e sleeps att
        else
          if rtr ≤ mr then genLoop oracle mr fuel rtr c e (sleeps ++ [2 ^ rtr]) att
          else genLoop oracle mr fuel rtr c e sleeps att
    else
      ⟨.error ("Groq generation failed after " ++ toString mr ++ " retries: " ++ lastErr),
        c, sleeps, attempts⟩

/-- `GroqClient.generate`. -/
def GroqClient.generate (c : GroqClient)
    (oracle : Nat → String → Except String String) : GenResult :=
  genLoop oracle c.max_retries (c.max_retries + 2) 0 c "" [] 0


/-! ## The workflow state and nodes
(`src/agent/state.py`, `src/agent/nodes.py`, `src/agent/graph.py`)

The untyped Python state dict is embedded as a structure.  Values that
come out of the parsed plan keep their dynamic `Json` type, exactly as
they flow through the Python dict (`steps` elements, `sql_query`,
accumulated queries).  Prompt strings are data fed only to the external
model and are not reconstructed; each model/engine call instead takes
the value its Python counterpart would return, and trace entries keep
the step label and kind.  Two dynamic-typing corner cases that crash
the Python process (a truthy non-list `steps` value reaching `len`
/ iteration, a non-dict plan step reaching `.get`) are modelled as the
empty plan / a missing key and are outside every claim's hypotheses. -/

abbrev Row := List (String × String)

structure TraceEntry where
  step : String
  type : String
deriving DecidableEq

structure Message where
  role : String
  content : String
deriving DecidableEq

structure AgentState where
  messages : List Message
  query : String
  schema_context : String
  steps : List Json
  current_step : Nat
  sql_query : Option Json
  query_results : Option (List Row)
  python_code : Option String
  code_results : Option String
  visualizations : List String
  sql_queries : List Json
  all_query_results : List (List Row)
  answer : String
  error : Option String
  retries : Nat
  should_continue : Bool
  provider : String
  trace : List TraceEntry

def truthyOptJson : Option Json → Bool
  | none => false
  | some j => j.truthy

def truthyOptRows : Option (List Row) → Bool
  | none => false
  | some l => !l.isEmpty

/-- Python `str()` of a decoded JSON value flowing into a string field
(container renderings are not modelled; every claim supplies strings). -/
def Json.pyStrOf : Json → String
  | .str s => s
  | .null => "None"
  | .bool true => "True"
  | .bool false => "False"
  | .num lx => lx
  | .arr _ => "<list>"
  | .obj _ => "<dict>"

/-- `{**step, 'sql_query': v}` (a non-dict raises in Python; modelled
as the unchanged value, outside every claim's hypotheses). -/
def objSet (j : Json) (k : String) (v : Json) : Json :=
  match j with
  | .obj fields => .obj (dictInsert fields k v)
  | other => other

/-- Result of `sql_tool(query)`: the success dict carries the rows, the
failure dict the error text (`src/tools/sql_tool.py`). -/
inductive SqlResult where
  | ok (results : List Row)
  | err (msg : String)

/-- The message rendered for the plan trace:
`Plan: {reasoning} ({n} step/steps)`. -/
def planMsg (plan : Json) (steps : List Json) : String :=
  "Plan: " ++ (plan.getD "reasoning" (.str "")).pyStrOf ++ " (" ++
    toString steps.length ++ " step" ++ (if steps.length ≠ 1 then "s" else "") ++ ")"

/-- The `except` branch of `analyze_query_node`: trace the failure and
return the terminal error state. -/
def analyzeFail (s : AgentState) (e : String) : AgentState :=
  { s with
    trace := s.trace ++ [⟨"Analysis failed: " ++ e, "error"⟩],
    steps := [], current_step := 0, visualizations := [], sql_queries := [],
    all_query_results := [],
    error := some ("Query analysis failed: " ++ e),
    should_continue := false }

/-- `analyze_query_node`: the generation outcome is the oracle value;
the reply is parsed by the real `_parse_llm_json`. -/
def analyze_query_node (s : AgentState) (gen : Except String String) : AgentState :=
  match gen with
  | .error e => analyzeFail s e
  | .ok response =>
    let s1 := { s with trace := s.trace ++ [⟨"Query analysis", "analysis"⟩] }
    match _parse_llm_json response with
    | .error pe => analyzeFail s1 pe
    | .ok plan =>
      match plan with
      | .obj _ =>
        let rawSteps := plan.getD "steps" (.arr [])
        if !rawSteps.truthy &&
            ((plan.pyGet "conversational_answer").map Json.truthy).getD false then
          { s1 with
            steps := [], current_step := 0, visualizations := [], sql_queries := [],
            all_query_results := [],
            answer := ((plan.pyGet "conversational_answer").getD .null).pyStrOf,
            should_continue := false }
        else
          let steps :=
            if !rawSteps.truthy &&
                ((plan.pyGet "sql_query").map Json.truthy).getD false then
              [Json.obj [("description", plan.getD "reasoning" (.str "")),
                         ("sql_query", (plan.pyGet "sql_query").getD .null)]]
            else rawSteps.elems
          { s1 with
            steps := steps, current_step := 0, visualizations := [], sql_queries := [],
            all_query_results := [],
            messages := s1.messages ++ [⟨"assistant", planMsg plan steps⟩] }
      | _ => analyzeFail s1 ("'" ++ plan.pyTypeName ++ "' object has no attribute 'get'")

/-- `prepare_step_node`. -/
def prepare_step_node (s : AgentState) : AgentState :=
  if s.current_step ≥ s.steps.length then
    { s with sql_query := none, query_results := none }
  else
    { s with sql_query := (s.steps.getD s.current_step .null).pyGet "sql_query",
             query_results := none }

/-- `execute_sql_node`; the boolean reports whether `sql_tool` was
actually invoked. -/
def execute_sql_node (s : AgentState) (r : SqlResult) : AgentState × Bool :=
  if !truthyOptJson s.sql_query then (s, false)
  else
    match r with
    | .ok results =>
      ({ s with
         query_results := some results,
         sql_queries := s.sql_queries ++ [s.sql_query.getD .null],
         all_query_results := s.all_query_results ++ [results],
         error := none,
         messages := s.messages ++
           [⟨"system", "Step " ++ toString (s.current_step + 1) ++
             ": Query returned " ++ toString results.length ++ " rows"⟩] }, true)
    | .err msg =>
      ({ s with error := some msg, retries := s.retries + 1 }, true)

/-- The response cleaning of `fix_sql_node`. -/
def cleanSqlResponse (resp : String) : String :=
  ⟨pyStripList (pyDropSuf "```".toList
    (pyDropPre "```".toList (pyDropPre "```sql".toList (pyStripList resp.toList))))⟩

/-- `fix_sql_node`. -/
def fix_sql_node (s : AgentState) (gen : Except String String) : AgentState :=
  match gen with
  | .error e =>
    { s with error := some ("SQL fix failed: " ++ e), should_continue := false }
  | .ok response =>
    let fixed_sql := cleanSqlResponse response
    let steps :=
      if s.current_step < s.steps.length then
        s.steps.set s.current_step
          (objSet (s.steps.getD s.current_step .null) "sql_query" (.str fixed_sql))
      else s.steps
    { s with
      sql_query := some (.str fixed_sql), error := none, steps := steps,
      messages := s.messages ++
        [⟨"system", "Auto-fixed SQL (attempt " ++ toString s.retries ++ ")"⟩] }

/-- A line consumed by the `plt.show()` substitution. -/
def lineIsPltShow (l : List Char) : Bool :=
  let t := l.dropWhile isRegexWs
  listStartsWith "plt.show()".toList t && (t.drop 10).all isRegexWs

/-- A line consumed by one of the import substitutions
(`import matplotlib…`, `import numpy…`, `from matplotlib…`). -/
def lineIsStrippedImport (l : List Char) : Bool :=
  let t := l.dropWhile isRegexWs
  (listStartsWith "import".toList t &&
    (let r := t.drop 6
     match r with
     | c :: _ => isRegexWs c &&
         (listStartsWith "matplotlib".toList (r.dropWhile isRegexWs) ||
          listStartsWith "numpy".toList (r.dropWhile isRegexWs))
     | [] => false)) ||
  (listStartsWith "from".toList t &&
    (let r := t.drop 4
     match r with
     | c :: _ => isRegexWs c && listStartsWith "matplotlib".toList (r.dropWhile isRegexWs)
     | [] => false))

def splitOnCharAux (sep : Char) (acc : List Char) : List Char → List (List Char)
  | [] => [acc.reverse]
  | c :: cs =>
    if c = sep then acc.reverse :: splitOnCharAux sep [] cs
    else splitOnCharAux sep (c :: acc) cs

/-- The code cleaning of `generate_visualizations_node`: strip fences,
then blank out `plt.show()` lines and re-imports (per-line rendering of
the multi-line substitutions). -/
def cleanVizCode (resp : String) : String :=
  let code := pyStripList resp.toList
  let code := pyDropSuf "```".toList
    (pyDropPre "```".toList (pyDropPre "```python".toList code))
  let code := pyStripList code
  let lines := splitOnCharAux '\n' [] code
  let lines := lines.map (fun l =>
    if lineIsPltShow l || lineIsStrippedImport l then [] else l)
  ⟨List.intercalate ['\n'] lines⟩

/-- The simpler cleaning applied to the repaired visualization code. -/
def cleanFixedCode (resp : String) : String :=
  ⟨pyStripList (pyDropSuf "```".toList
    (pyDropPre "```".toList (pyDropPre "```python".toList (pyStripList resp.toList))))⟩

/-- Oracle values consumed by one run of the visualization node: the
code generation, the first sandbox result, the repair generation and
the second sandbox result. -/
structure VizOracle where
  gen : Except String String
  exec1 : ChartResult
  fixGen : Except String String
  exec2 : ChartResult

/-- Call counts of one visualization-node run. -/
structure VizStats where
  genCalls : Nat
  execCalls : Nat
  fixGenCalls : Nat
deriving DecidableEq

/-- Shared tail of `generate_visualizations_node`: append the produced
images (if any) and return. -/
def finishViz (s : AgentState) (result : ChartResult) (st : VizStats) :
    AgentState × VizStats :=
  if !result.images.isEmpty then
    ({ s with
       visualizations := s.visualizations ++ result.images,
       trace := s.trace ++
         [⟨"Generated " ++ toString result.images.length ++ " chart(s)", "viz"⟩] }, st)
  else (s, st)

/-- `generate_visualizations_node`. -/
def generate_visualizations_node (s : AgentState) (o : VizOracle) :
    AgentState × VizStats :=
  if s.all_query_results.isEmpty then
    ({ s with trace := s.trace ++
        [⟨"Skipped visualization — no query results", "info"⟩] }, ⟨0, 0, 0⟩)
  else
    match o.gen with
    | .error e =>
      ({ s with trace := s.trace ++
          [⟨"Viz generation failed: " ++ e, "error"⟩] }, ⟨1, 0, 0⟩)
    | .ok resp =>
      let code := cleanVizCode resp
      let s1 := { s with trace := s.trace ++
        [⟨"Visualization code generation", "viz"⟩] }
      if pyStrip code == "pass" || !truthyStr (pyStrip code) then (s1, ⟨1, 0, 0⟩)
      else
        let r1 := o.exec1
        if truthyOptStr r1.error then
          let s2 := { s1 with trace := s1.trace ++
            [⟨"Chart code failed: " ++ ⟨((r1.error.getD "").toList.take 200)⟩,
              "error"⟩] }
          match o.fixGen with
          | .error e =>
            ({ s2 with trace := s2.trace ++
                [⟨"Viz generation failed: " ++ e, "error"⟩] }, ⟨1, 1, 1⟩)
          | .ok fresp =>
            let fixed := cleanFixedCode fresp
            if truthyStr (pyStrip fixed) && !(pyStrip fixed == "pass") then
              finishViz s2 o.exec2 ⟨1, 2, 1⟩
            else
              finishViz s2 r1 ⟨1, 1, 1⟩
        else finishViz s1 r1 ⟨1, 1, 0⟩

/-- `advance_step_node`. -/
def advance_step_node (s : AgentState) : AgentState :=
  { s with current_step := s.current_step + 1, error := none, retries := 0 }

/-- `generate_answer_node`; the boolean reports whether the model was
actually called. -/
def generate_answer_node (s : AgentState) (gen : Except String String) :
    AgentState × Bool :=
  if truthyStr s.answer && s.all_query_results.isEmpty &&
      !truthyOptRows s.query_results then
    ({ s with should_continue := false,
              messages := s.messages ++ [⟨"assistant", s.answer⟩] }, false)
  else
    match gen with
    | .ok response =>
      ({ s with answer := response, should_continue := false,
                messages := s.messages ++ [⟨"assistant", response⟩] }, true)
    | .error e =>
      ({ s with error := some ("Answer generation failed: " ++ e),
                should_continue := false }, true)

/-! ## Routing and the graph driver -/

inductive Route1 where
  | prepare_step
  | answer
deriving DecidableEq

/-- `route_after_analysis`. -/
def route_after_analysis (s : AgentState) : Route1 :=
  if truthyStr s.answer then .answer
  else if !s.steps.isEmpty &&
      s.steps.any (fun st => ((st.pyGet "sql_query").map Json.truthy).getD false) then
    .prepare_step
  else .answer

inductive Route2 where
  | advance_step
  | fix_sql
  | generate_viz
deriving DecidableEq

/-- `route_after_sql`: the `current < len(steps) - 1` comparison is on
Python ints, rendered as `current + 1 < len` (equal for every length
including zero). -/
def route_after_sql (s : AgentState) : Route2 :=
  if truthyOptStr s.error && s.retries ≤ 3 then .fix_sql
  else if s.current_step + 1 < s.steps.length then .advance_step
  else .generate_viz

inductive Node where
  | analyze
  | prepare
  | executeSql
  | fixSql
  | genViz
  | advance
  | answer
  | done
deriving DecidableEq

/-- All external outcomes of one run: per-call oracles are indexed by
the number of calls already made. -/
structure Env where
  analyzeGen : Except String String
  sqlResults : Nat → SqlResult
  fixGen : Nat → Except String String
  vizGen : Except String String
  vizExec1 : ChartResult
  vizFixGen : Except String String
  vizExec2 : ChartResult
  answerGen : Except String String

structure RunStats where
  sqlCalls : Nat
  fixCalls : Nat
  vizGenCalls : Nat
  vizExecCalls : Nat
  vizFixCalls : Nat
  answerCalls : Nat
deriving DecidableEq

def stats0 : RunStats := ⟨0, 0, 0, 0, 0, 0⟩

/-- Apply one node of the graph. -/
def stepNode (env : Env) (n : Node) (s : AgentState) (st : RunStats) :
    AgentState × RunStats :=
  match n with
  | .analyze => (analyze_query_node s env.analyzeGen, st)
  | .prepare => (prepare_step_node s, st)
  | .executeSql =>
    let p := execute_sql_node s (env.sqlResults st.sqlCalls)
    (p.1, if p.2 then { st with sqlCalls := st.sqlCalls + 1 } else st)
  | .fixSql =>
    (fix_sql_node s (env.fixGen st.fixCalls), { st with fixCalls := st.fixCalls + 1 })
  | .genViz =>
    let p := generate_visualizations_node s
      ⟨env.vizGen, env.vizExec1, env.vizFixGen, env.vizExec2⟩
    (p.1, { st with
      vizGenCalls := st.vizGenCalls + p.2.genCalls,
      vizExecCalls := st.vizExecCalls + p.2.execCalls,
      vizFixCalls := st.vizFixCalls + p.2.fixGenCalls })
  | .advance => (advance_step_node s, st)
  | .answer =>
    let p := generate_answer_node s env.answerGen
    (p.1, if p.2 then { st with answerCalls := st.answerCalls + 1 } else st)
  | .done => (s, st)

/-- The edges of `create_agent_graph`: the two conditional edges use
the routing functions, every other edge is fixed. -/
def nextNode (n : Node) (s : AgentState) : Node :=
  match n with
  | .analyze =>
    match route_after_analysis s with
    | .prepare_step => .prepare
    | .answer => .answer
  | .prepare => .executeSql
  | .executeSql =>
    match route_after_sql s with
    | .advance_step => .advance
    | .fix_sql => .fixSql
    | .generate_viz => .genViz
  | .fixSql => .executeSql
  | .genViz => .answer
  | .advance => .prepare
  | .answer => .done
  | .done => .done

/-- Run the graph from a node until `END`; `none` when the fuel is too
small (every terminating run is reproduced by a large enough fuel). -/
def runLoop (env : Env) : Nat → Node → AgentState → RunStats →
    Option (AgentState × RunStats)
  | 0, _, _, _ => none
  | fuel + 1, n, s, st =>
    match n with
    | .done => some (s, st)
    | _ =>
      let p := stepNode env n s st
      runLoop env fuel (nextNode n p.1) p.1 p.2

/-- The initial state built by `run_agent` (`src/agent/graph.py`). -/
def initialState (query schema_context provider : String)
    (history : List Message) : AgentState :=
  { messages := history
    query := query
    schema_context := schema_context
    steps := []
    current_step := 0
    sql_query := none
    query_results := none
    python_code := none
    code_results := none
    visualizations := []
    sql_queries := []
    all_query_results := []
    answer := ""
    error := none
    retries := 0
    should_continue := true
    provider := provider
    trace := [⟨"Initialized with provider: " ++ pyUpper provider, "info"⟩] }

/-- `run_agent`: build the initial state and run the compiled graph. -/
def runAgent (env : Env) (fuel : Nat) (query schema provider : String)
    (history : List Message) : Option (AgentState × RunStats) :=
  runLoop env fuel .analyze (initialState query schema provider history) stats0


/-! ## Remaining helper definitions used by the theorems -/

/-- The exception text `analyze_query_node` catches while producing the
plan: the generation error, or the parse error of the reply (`none`
when planning succeeds). -/
def planFailure : Except String String → Option String
  | .error e => some e
  | .ok r =>
    match _parse_llm_json r with
    | .error pe => some pe
    | .ok _ => none

/-- A fresh state as `run_agent` builds it, at sample arguments. -/
def baseState : AgentState := initialState "q" "schema" "groq" []

/-- Environment witnessing the analysis-failure behaviour: planning
generation raises, answer synthesis succeeds. -/
def c1Env : Env :=
  { analyzeGen := .error "API down"
    sqlResults := fun _ => .err "unused"
    fixGen := fun _ => .error "unused"
    vizGen := .error "unused"
    vizExec1 := ⟨[], none⟩
    vizFixGen := .error "unused"
    vizExec2 := ⟨[], none⟩
    answerGen := .ok "Sorry, the query could not be processed." }

/-- Environment with a conversational planning reply. -/
def c3Env : Env :=
  { analyzeGen := .ok "\x7b\"steps\": [], \"reasoning\": \"conv\", \"conversational_answer\": \"I am a data assistant.\"\x7d"
    sqlResults := fun _ => .err "unused"
    fixGen := fun _ => .error "unused"
    vizGen := .error "unused"
    vizExec1 := ⟨[], none⟩
    vizFixGen := .error "unused"
    vizExec2 := ⟨[], none⟩
    answerGen := .error "unused" }

/-- Environment for the fix-failure run: a one-step plan whose query
always fails, a repair model that always raises, a working answer
model. -/
def c5Env : Env :=
  { analyzeGen := .ok "\x7b\"steps\": [\x7b\"description\": \"d\", \"sql_query\": \"SELECT bad\"\x7d], \"reasoning\": \"r\"\x7d"
    sqlResults := fun _ => .err "Binder Error: column bad not found"
    fixGen := fun _ => .error "rate limited"
    vizGen := .error "unused"
    vizExec1 := ⟨[], none⟩
    vizFixGen := .error "unused"
    vizExec2 := ⟨[], none⟩
    answerGen := .ok "No data was available." }



/-- Concrete states used by the routing witness: retries exhausted on
the last step / retry budget left. -/
def c4StateA : AgentState :=
  { baseState with error := some "boom", retries := 4,
                   steps := [Json.obj [("sql_query", Json.str "SELECT 1")]] }

def c4StateB : AgentState :=
  { baseState with error := some "boom", retries := 2 }

/-- Concrete state with an out-of-range cursor. -/
def c10State : AgentState :=
  { baseState with current_step := 2 }

/-- Concrete state with a pending query, and an environment whose SQL
engine returns one row. -/
def c2State : AgentState :=
  { baseState with sql_query := some (.str "SELECT 1") }

def c2Env : Env :=
  { c1Env with sqlResults := fun _ => .ok [[("n", "5")]] }


/-- A stderr text whose exception line contains a temporary-file path
(used to refute the path-scrubbing part of the sandbox claim). -/
def c7Stderr : String :=
  "FileNotFoundError: [Errno 2] No such file or directory: /tmp/tmpabc123.py"

/-- A stderr text with a traceback and a clean exception line. -/
def c7StderrW : String :=
  "Traceback (most recent call last):\n  File \"/tmp/t.py\", line 3\nValueError: bad input"


/-! ## Theorems -/

set_option maxHeartbeats 2000000

/-- Helper: the visualization node touches only `visualizations` and
`trace`; every other field of the state is returned unchanged. -/
theorem viz_frame (s : AgentState) (o : VizOracle) :
    (generate_visualizations_node s o).1.sql_queries = s.sql_queries ∧
    (generate_visualizations_node s o).1.all_query_results = s.all_query_results ∧
    (generate_visualizations_node s o).1.steps = s.steps ∧
    (generate_visualizations_node s o).1.current_step = s.current_step ∧
    (generate_visualizations_node s o).1.sql_query = s.sql_query ∧
    (generate_visualizations_node s o).1.query_results = s.query_results ∧
    (generate_visualizations_node s o).1.answer = s.answer ∧
    (generate_visualizations_node s o).1.error = s.error ∧
    (generate_visualizations_node s o).1.retries = s.retries ∧
    (generate_visualizations_node s o).1.should_continue = s.should_continue ∧
    (generate_visualizations_node s o).1.messages = s.messages := by
  obtain ⟨gen, ex1, fxg, ex2⟩ := o
  cases gen <;> cases fxg <;>
    simp only [generate_visualizations_node, finishViz] <;>
    split_ifs <;> simp

/-- Helper: every branch of the analysis node resets the accumulator
fields. -/
theorem analyze_resets_accumulators (s : AgentState) (gen : Except String String) :
    (analyze_query_node s gen).sql_queries = [] ∧
    (analyze_query_node s gen).all_query_results = [] ∧
    (analyze_query_node s gen).visualizations = [] ∧
    (analyze_query_node s gen).current_step = 0 := by
  cases gen with
  | error e => simp [analyze_query_node, analyzeFail]
  | ok r =>
    cases hp : _parse_llm_json r with
    | error pe => simp [analyze_query_node, analyzeFail, hp]
    | ok plan =>
      cases plan <;>
        simp only [analyze_query_node, analyzeFail, hp] <;>
        (try split_ifs) <;> simp

/-- C4: after a query execution, routing sends the state with a truthy
error and at most three retries to `FixingQuery`; every other state is
sent to `AdvancingStep` when the cursor is before the last step and to
`GeneratingVisualization` otherwise.  A failed execution leaves both
accumulator lists untouched (so an exhausted step's failing query is in
neither) and only records the error and the incremented retry count. -/
theorem route_after_sql_spec (s : AgentState) (msg : String) :
    (truthyOptStr s.error = true ∧ s.retries ≤ 3 → route_after_sql s = .fix_sql) ∧
    (¬(truthyOptStr s.error = true ∧ s.retries ≤ 3) →
      route_after_sql s =
        if s.current_step + 1 < s.steps.length then .advance_step
        else .generate_viz) ∧
    (execute_sql_node s (.err msg)).1.sql_queries = s.sql_queries ∧
    (execute_sql_node s (.err msg)).1.all_query_results = s.all_query_results ∧
    (truthyOptJson s.sql_query = true →
      (execute_sql_node s (.err msg)).1.retries = s.retries + 1 ∧
      (execute_sql_node s (.err msg)).1.error = some msg) := by
  refine ⟨?_, ?_, ?_, ?_, ?_⟩
  · intro h
    unfold route_after_sql
    rw [if_pos (by simp [h.1, h.2])]
  · intro h
    unfold route_after_sql
    rw [if_neg (by simp only [Bool.and_eq_true, decide_eq_true_eq]
                   exact fun hc => h ⟨hc.1, hc.2⟩)]
  · unfold execute_sql_node
    split <;> simp
  · unfold execute_sql_node
    split <;> simp
  · intro h
    unfold execute_sql_node
    simp [h]

/-- C4 witness: a concrete failing state with retries exhausted on the
last step routes to visualization, and one with budget left routes to
the fixer. -/
theorem route_after_sql_spec_witness :
    route_after_sql c4StateA = .generate_viz ∧
    route_after_sql c4StateB = .fix_sql := by
  constructor
  · have h := route_after_sql_spec c4StateA "m"
    have h2 := h.2.1 (by decide)
    simpa [c4StateA, baseState, initialState] using h2
  · have h := route_after_sql_spec c4StateB "m"
    exact h.1 (by decide)

/-- C10: a falsy current query (`None` or the empty string) makes the
execution node return the state unchanged without invoking the SQL
tool, and an out-of-range cursor makes the preparation node set the
query to `None`, so execution after it is always a no-op. -/
theorem unset_query_is_noop (s : AgentState) (r r2 : SqlResult)
    (h : s.sql_query = none ∨ s.sql_query = some (.str "")) :
    execute_sql_node s r = (s, false) ∧
    (s.current_step ≥ s.steps.length →
      (prepare_step_node s).sql_query = none ∧
      execute_sql_node (prepare_step_node s) r2 = (prepare_step_node s, false)) := by
  constructor
  · rcases h with h | h <;>
      simp [execute_sql_node, h, truthyOptJson, Json.truthy, truthyStr]
  · intro h2
    have hp : (prepare_step_node s).sql_query = none := by
      simp [prepare_step_node, h2]
    exact ⟨hp, by simp [execute_sql_node, hp, truthyOptJson]⟩

/-- C10 witness: at a concrete state with an out-of-range cursor. -/
theorem unset_query_is_noop_witness :
    execute_sql_node c10State (.err "m") = (c10State, false) ∧
    (prepare_step_node c10State).sql_query = none := by
  have h := unset_query_is_noop c10State (.err "m") (.err "m") (Or.inl rfl)
  exact ⟨h.1, (h.2 (by simp [c10State, baseState, initialState])).1⟩

/-- C2: every node of the graph preserves the alignment of the two
accumulator lists; a successful execution appends the query and its
result set together, a failed one appends to neither. -/
theorem accumulators_stay_aligned (env : Env) (n : Node) (s : AgentState) (st : RunStats)
    (h : s.sql_queries.length = s.all_query_results.length) :
    (stepNode env n s st).1.sql_queries.length =
      (stepNode env n s st).1.all_query_results.length ∧
    (∀ rows, truthyOptJson s.sql_query = true →
      (execute_sql_node s (.ok rows)).1.sql_queries =
        s.sql_queries ++ [s.sql_query.getD .null] ∧
      (execute_sql_node s (.ok rows)).1.all_query_results =
        s.all_query_results ++ [rows]) ∧
    (∀ msg, (execute_sql_node s (.err msg)).1.sql_queries = s.sql_queries ∧
      (execute_sql_node s (.err msg)).1.all_query_results = s.all_query_results) := by
  refine ⟨?_, ?_, ?_⟩
  · cases n with
    | analyze =>
      have ha := analyze_resets_accumulators s env.analyzeGen
      simp [stepNode, ha.1, ha.2.1]
    | prepare =>
      simp only [stepNode]
      unfold prepare_step_node
      split <;> simpa using h
    | executeSql =>
      simp only [stepNode]
      unfold execute_sql_node
      split
      · simpa using h
      · split <;> simpa using h
    | fixSql =>
      simp only [stepNode]
      unfold fix_sql_node
      split <;> simpa using h
    | genViz =>
      have hv := viz_frame s ⟨env.vizGen, env.vizExec1, env.vizFixGen, env.vizExec2⟩
      simp only [stepNode]
      rw [hv.1, hv.2.1]
      exact h
    | advance => simpa [stepNode, advance_step_node] using h
    | answer =>
      simp only [stepNode]
      unfold generate_answer_node
      split
      · simpa using h
      · split <;> simpa using h
    | done => simpa [stepNode] using h
  · intro rows htr
    unfold execute_sql_node
    simp [htr]
  · intro msg
    unfold execute_sql_node
    split <;> simp

/-- C2 witness: the invariant at a concrete aligned state through a
successful execution. -/
theorem accumulators_stay_aligned_witness :
    (stepNode c2Env .executeSql c2State stats0).1.sql_queries.length =
      (stepNode c2Env .executeSql c2State stats0).1.all_query_results.length := by
  exact (accumulators_stay_aligned c2Env .executeSql c2State stats0 rfl).1

/-- Helper: a string with a non-empty left part is non-empty. -/
theorem append_ne_empty_left (a b : String) (h : a ≠ "") : a ++ b ≠ "" := by
  obtain ⟨la⟩ := a
  obtain ⟨lb⟩ := b
  intro hc
  apply h
  have : la ++ lb = [] := congrArg String.data hc
  have hla : la = [] := by
    cases la with
    | nil => rfl
    | cons c cs => simp at this
  simp [hla]

/-- C6: the resilient parser is the first-success sweep of its stages
in the fixed order (brace extraction and direct parse, character
repair, single-quote substitution, regex field extraction — all after
the fence/triple-quote normalization), and it raises exactly when every
stage fails. -/
theorem parser_pipeline_spec (raw : String) :
    (∀ j, _parse_llm_json raw = .ok j ↔ firstSome (parseStages raw) = some j) ∧
    ((∃ e, _parse_llm_json raw = .error e) ↔ ∀ o ∈ parseStages raw, o = none) := by
  simp only [_parse_llm_json, parseStages]
  cases h1 : jsonLoads ⟨extractBraces (parseNormalize raw)⟩ with
  | some j => simp [firstSome]
  | none =>
    cases h2 : jsonLoads ⟨parseRepairText (extractBraces (parseNormalize raw))⟩ with
    | some j => simp [firstSome]
    | none =>
      cases h3 : (if sqGuard (parseRepairText (extractBraces (parseNormalize raw)))
          then jsonLoads ⟨swapQuotes (parseRepairText (extractBraces (parseNormalize raw)))⟩
          else none) with
      | some j => simp [firstSome]
      | none =>
        cases h4 : regexExtract (parseRepairText (extractBraces (parseNormalize raw))) with
        | some j => simp [firstSome]
        | none => simp [firstSome]

/-- C6 witness: a trailing-comma reply is recovered by the repair stage
and the pipeline view returns the same object. -/
theorem parser_pipeline_spec_witness :
    firstSome (parseStages "\x7b\"a\": 1,\x7d") = some (Json.obj [("a", Json.num "1")]) := by
  exact ((parser_pipeline_spec "\x7b\"a\": 1,\x7d").1 (Json.obj [("a", Json.num "1")])).mp (by rfl)

/-- C7 counterexample: a failing run whose exception line contains a
temporary-file path is surfaced verbatim — the returned error does
contain a filesystem path, refuting the never-contains-a-path claim. -/
theorem chart_error_keeps_path_counterexample :
    (execute_chart_code (.completed 1 "" c7Stderr) 30).error =
      some ("Chart code failed: " ++ c7Stderr) ∧
    strContainsSub "/tmp/tmpabc123.py"
      (((execute_chart_code (.completed 1 "" c7Stderr) 30).error).getD "") = true := by
  constructor
  · rfl
  · decide

/-- C7 (amended): a non-zero exit returns no images and the non-empty
sanitized error; the sanitized text is the truncated last
exception-shaped line when one exists (taken verbatim, unscrubbed),
and only otherwise the scrubbed last line; a timeout returns no images
and a fixed non-empty message. -/
theorem chart_failure_sanitized (rc : Int) (stdout stderr : String) (t : Nat)
    (h : rc ≠ 0) :
    (execute_chart_code (.completed rc stdout stderr) t).images = [] ∧
    (execute_chart_code (.completed rc stdout stderr) t).error =
      some ("Chart code failed: " ++ _sanitize_error stderr) ∧
    (∀ m, (execute_chart_code (.completed rc stdout stderr) t).error = some m → m ≠ "") ∧
    (∀ l, (pySplitlines (pyStripList stderr.toList)).reverse.find?
        (fun l => errKindLine (pyStripList l)) = some l →
      _sanitize_error stderr = ⟨(pyStripList l).take 300⟩) ∧
    (execute_chart_code .timedOut t).images = [] ∧
    (∀ m, (execute_chart_code .timedOut t).error = some m → m ≠ "") := by
  refine ⟨?_, ?_, ?_, ?_, ?_, ?_⟩
  · simp [execute_chart_code, h]
  · simp [execute_chart_code, h]
  · intro m hm
    simp [execute_chart_code, h] at hm
    rw [← hm]
    exact append_ne_empty_left _ _ (by decide)
  · intro l hl
    unfold _sanitize_error
    rw [if_neg, hl]
    intro hempty
    rw [List.isEmpty_iff] at hempty
    rw [hempty] at hl
    simp at hl
  · rfl
  · intro m hm
    simp [execute_chart_code] at hm
    rw [← hm]
    exact append_ne_empty_left _ _ (append_ne_empty_left _ _ (by decide))

/-- C7 witness: a concrete traceback is sanitized to its exception
line with no images returned. -/
theorem chart_failure_sanitized_witness :
    (execute_chart_code (.completed 1 "" c7StderrW) 30).images = [] ∧
    (execute_chart_code (.completed 1 "" c7StderrW) 30).error =
      some "Chart code failed: ValueError: bad input" := by
  refine ⟨(chart_failure_sanitized 1 "" c7StderrW 30 (by decide)).1, ?_⟩
  rfl

/-- C8: visualization failures never abort the run.  At most one
model-assisted repair is attempted (exactly one whenever the first
sandbox run both happened and failed) and the code is executed at most
twice; when generation raises, when the repair raises, or when no run
produced an image, `visualizations` is returned unchanged; every
accumulated field other than `visualizations`/`trace` is intact in all
cases; and the graph edge after visualization is unconditionally the
answer node. -/
theorem viz_failures_never_abort (s : AgentState) (o : VizOracle) :
    (generate_visualizations_node s o).2.fixGenCalls ≤ 1 ∧
    (generate_visualizations_node s o).2.execCalls ≤ 2 ∧
    ((generate_visualizations_node s o).2.execCalls ≥ 1 ∧
        truthyOptStr o.exec1.error = true →
      (generate_visualizations_node s o).2.fixGenCalls = 1) ∧
    (∀ e, o.gen = .error e →
      (generate_visualizations_node s o).1.visualizations = s.visualizations) ∧
    (∀ e, truthyOptStr o.exec1.error = true → o.fixGen = .error e →
      (generate_visualizations_node s o).1.visualizations = s.visualizations) ∧
    (truthyOptStr o.exec1.error = true → o.exec1.images = [] → o.exec2.images = [] →
      (generate_visualizations_node s o).1.visualizations = s.visualizations) ∧
    (generate_visualizations_node s o).1.sql_queries = s.sql_queries ∧
    (generate_visualizations_node s o).1.all_query_results = s.all_query_results ∧
    (generate_visualizations_node s o).1.answer = s.answer ∧
    (generate_visualizations_node s o).1.error = s.error ∧
    (∀ s2, nextNode .genViz s2 = .answer) := by
  have hv := viz_frame s o
  refine ⟨?_, ?_, ?_, ?_, ?_, ?_, hv.1, hv.2.1, hv.2.2.2.2.2.2.1, hv.2.2.2.2.2.2.2.1, ?_⟩
  · obtain ⟨gen, ex1, fxg, ex2⟩ := o
    cases gen <;> cases fxg <;>
      simp only [generate_visualizations_node, finishViz] <;>
      split_ifs <;> simp
  · obtain ⟨gen, ex1, fxg, ex2⟩ := o
    cases gen <;> cases fxg <;>
      simp only [generate_visualizations_node, finishViz] <;>
      split_ifs <;> simp
  · obtain ⟨gen, ex1, fxg, ex2⟩ := o
    intro hfail
    cases gen <;> cases fxg <;>
      simp only [generate_visualizations_node, finishViz] at hfail ⊢ <;>
      split_ifs at hfail ⊢ <;> simp_all
  · intro e hgen
    obtain ⟨gen, ex1, fxg, ex2⟩ := o
    simp at hgen
    subst hgen
    simp only [generate_visualizations_node, finishViz]
    split_ifs <;> simp
  · intro e herr hfix
    obtain ⟨gen, ex1, fxg, ex2⟩ := o
    simp at herr hfix
    subst hfix
    cases gen <;>
      simp only [generate_visualizations_node, finishViz] <;>
      split_ifs <;> simp_all
  · intro herr h1 h2
    obtain ⟨gen, ex1, fxg, ex2⟩ := o
    simp at herr h1 h2
    cases gen <;> cases fxg <;>
      simp only [generate_visualizations_node, finishViz] <;>
      split_ifs <;> simp_all
  · intro s2
    rfl

/-- C8 witness: a concrete failing chart run whose repair also fails
leaves the state's lists unchanged. -/
theorem viz_failures_never_abort_witness :
    (generate_visualizations_node
      { baseState with all_query_results := [[[("n", "5")]]] }
      ⟨.ok "plt.figure()", ⟨[], some "KeyError: 'x'"⟩, .ok "plt.figure()",
        ⟨[], some "KeyError: 'x'"⟩⟩).1.visualizations = [] := by
  have h := viz_failures_never_abort
    { baseState with all_query_results := [[[("n", "5")]]] }
    ⟨.ok "plt.figure()", ⟨[], some "KeyError: 'x'"⟩, .ok "plt.figure()",
      ⟨[], some "KeyError: 'x'"⟩⟩
  exact h.2.2.2.2.2.1 (by decide) rfl rfl

/-- Helper: the fallback switch never changes the configured model
names. -/
theorem switch_preserves_names (c : GroqClient) :
    (switch_to_fallback c).2.model_name = c.model_name := by
  unfold switch_to_fallback
  split_ifs <;> rfl

/-- Helper: past the first failure (`1 ≤ retries`) the retry loop of
an always-failing backend sleeps `2^k` before the `k`-th retry for the
remaining budget, raises at the end, and leaves the client unchanged. -/
theorem genLoop_allFail (oracle : Nat → String → Except String String) (mr : Nat)
    (hall : ∀ k m, ∃ e, oracle k m = .error e) :
    ∀ fuel r, 1 ≤ r → mr + 2 - r ≤ fuel → ∀ c le sl att,
      ∃ msg, genLoop oracle mr fuel r c le sl att =
        ⟨.error msg, c, sl ++ (List.range' (r + 1) (mr - r)).map (2 ^ ·),
          att + (mr + 1 - r)⟩ := by
  intro fuel
  induction fuel with
  | zero =>
    intro r h1 h2 c le sl att
    refine ⟨"Groq generation failed after " ++ toString mr ++ " retries: " ++ le, ?_⟩
    have hmr : mr - r = 0 := by omega
    have hmra : mr + 1 - r = 0 := by omega
    simp [genLoop, hmr, hmra]
  | succ fuel ih =>
    intro r h1 h2 c le sl att
    by_cases hup : r ≤ mr
    · obtain ⟨e, he⟩ := hall att c.current_model
      have hr1 : ¬(r + 1 = 1) := by omega
      by_cases h3 : r + 1 ≤ mr
      · obtain ⟨msg, hrec⟩ := ih (r + 1) (by omega) (by omega) c e (sl ++ [2 ^ (r + 1)]) (att + 1)
        refine ⟨msg, ?_⟩
        simp only [genLoop, if_pos hup, he, if_neg hr1, if_pos h3]
        rw [hrec]
        have hl : sl ++ (List.range' (r + 1) (mr - r)).map (2 ^ ·) =
            (sl ++ [2 ^ (r + 1)]) ++ (List.range' (r + 2) (mr - (r + 1))).map (2 ^ ·) := by
          rw [show mr - r = (mr - (r + 1)) + 1 from by omega, List.range'_succ]
          simp
        have ha : att + (mr + 1 - r) = (att + 1) + (mr + 1 - (r + 1)) := by omega
        rw [hl, ha]
      · obtain ⟨msg, hrec⟩ := ih (r + 1) (by omega) (by omega) c e sl (att + 1)
        refine ⟨msg, ?_⟩
        simp only [genLoop, if_pos hup, he, if_neg hr1, if_neg h3]
        rw [hrec]
        have hmr : mr - r = 0 := by omega
        have hmr2 : mr - (r + 1) = 0 := by omega
        have ha : att + (mr + 1 - r) = (att + 1) + (mr + 1 - (r + 1)) := by omega
        rw [hmr, hmr2, ha]
        simp
    · refine ⟨"Groq generation failed after " ++ toString mr ++ " retries: " ++ le, ?_⟩
      have hmr : mr - r = 0 := by omega
      have hmra : mr + 1 - r = 0 := by omega
      simp [genLoop, if_neg hup, hmr, hmra]

/-- C9 counterexample: with `max_retries = 1` and every attempt
failing, the client makes two backend attempts — more than the claimed
`maxRetries` bound of one. -/
theorem generate_attempts_counterexample :
    ((⟨"m", none, 1, "m"⟩ : GroqClient).generate (fun _ _ => .error "x")).attempts = 2 ∧
    (⟨"m", none, 1, "m"⟩ : GroqClient).max_retries = 1 ∧
    ((⟨"m", none, 1, "m"⟩ : GroqClient).generate (fun _ _ => .error "x")).outcome =
      .error "Groq generation failed after 1 retries: x" := by
  refine ⟨by decide, rfl, by decide⟩

/-- C9 (amended): under an always-failing backend the client makes
exactly `maxRetries + 1` attempts (the initial call plus `maxRetries`
retries) and then raises; the first failure switches to a configured,
unused fallback and retries immediately with no backoff; each later
failure sleeps `2^attempt` seconds before retrying; the model switched
to persists on the returned client and `reset_model` restores the
primary. -/
theorem generate_retry_schedule (c : GroqClient)
    (oracle : Nat → String → Except String String)
    (hall : ∀ k m, ∃ e, oracle k m = .error e) :
    (c.generate oracle).attempts = c.max_retries + 1 ∧
    (∃ msg, (c.generate oracle).outcome = .error msg) ∧
    (c.generate oracle).client = (switch_to_fallback c).2 ∧
    (c.generate oracle).sleeps =
      (List.range' (if (switch_to_fallback c).1 then 2 else 1)
        (c.max_retries + 1 - (if (switch_to_fallback c).1 then 2 else 1))).map (2 ^ ·) ∧
    (reset_model (c.generate oracle).client).current_model = c.model_name := by
  obtain ⟨e, he⟩ := hall 0 c.current_model
  have hstep : c.generate oracle =
      (if (switch_to_fallback c).1 then
        genLoop oracle c.max_retries (c.max_retries + 1) 1 (switch_to_fallback c).2 e [] 1
      else if 1 ≤ c.max_retries then
        genLoop oracle c.max_retries (c.max_retries + 1) 1 (switch_to_fallback c).2 e
          [2 ^ 1] 1
      else
        genLoop oracle c.max_retries (c.max_retries + 1) 1 (switch_to_fallback c).2 e
          [] 1) := by
    show genLoop oracle c.max_retries (c.max_retries + 1 + 1) 0 c "" [] 0 = _
    simp only [genLoop, if_pos (Nat.zero_le c.max_retries), he]
    cases hs : switch_to_fallback c with
    | mk b c1 =>
      cases b
      all_goals simp
  obtain ⟨msg, hrec⟩ := genLoop_allFail oracle c.max_retries hall
    (c.max_retries + 1) 1 (by omega) (by omega) (switch_to_fallback c).2 e [] 1
  by_cases hb : (switch_to_fallback c).1
  · rw [hstep, if_pos hb, hrec]
    refine ⟨by simp; omega, ⟨msg, rfl⟩, rfl, ?_, ?_⟩
    · simp only [if_pos hb, List.nil_append]
      rw [show c.max_retries + 1 - 2 = c.max_retries - 1 from by omega]
    · simp [reset_model, switch_preserves_names]
  · by_cases hm : 1 ≤ c.max_retries
    · obtain ⟨msg2, hrec2⟩ := genLoop_allFail oracle c.max_retries hall
        (c.max_retries + 1) 1 (by omega) (by omega) (switch_to_fallback c).2 e [2 ^ 1] 1
      rw [hstep, if_neg hb, if_pos hm, hrec2]
      refine ⟨by simp; omega, ⟨msg2, rfl⟩, rfl, ?_, ?_⟩
      · simp only [if_neg hb]
        rw [show c.max_retries + 1 - 1 = (c.max_retries - 1) + 1 from by omega,
          List.range'_succ]
        simp
      · simp [reset_model, switch_preserves_names]
    · rw [hstep, if_neg hb, if_neg hm, hrec]
      have hmr0 : c.max_retries = 0 := by omega
      refine ⟨by simp; omega, ⟨msg, rfl⟩, rfl, ?_, ?_⟩
      · simp only [if_neg hb, hmr0]
        simp
      · simp [reset_model, switch_preserves_names]

/-- C9 witness: a concrete always-failing backend with a configured
fallback makes four attempts for `max_retries = 3`, sleeps 4 then 8
seconds, ends on the fallback model and resets to the primary. -/
theorem generate_retry_schedule_witness :
    ((⟨"m-primary", some "m-fallback", 3, "m-primary"⟩ : GroqClient).generate
        (fun _ _ => .error "boom")).attempts = 4 ∧
    ((⟨"m-primary", some "m-fallback", 3, "m-primary"⟩ : GroqClient).generate
        (fun _ _ => .error "boom")).sleeps = [4, 8] ∧
    ((⟨"m-primary", some "m-fallback", 3, "m-primary"⟩ : GroqClient).generate
        (fun _ _ => .error "boom")).client.current_model = "m-fallback" ∧
    (reset_model ((⟨"m-primary", some "m-fallback", 3, "m-primary"⟩ : GroqClient).generate
        (fun _ _ => .error "boom")).client).current_model = "m-primary" := by
  have h := generate_retry_schedule ⟨"m-primary", some "m-fallback", 3, "m-primary"⟩
    (fun _ _ => .error "boom") (fun k m => ⟨"boom", rfl⟩)
  refine ⟨?_, ?_, ?_, ?_⟩
  · rw [h.1]
  · rw [h.2.2.2.1]
    decide
  · rw [h.2.2.1]
    decide
  · rw [h.2.2.2.2]

/-- C1 counterexample: a run whose planning call raises but whose
answer call succeeds ends with `error` set *and a non-empty answer* —
refuting the claimed empty answer. -/
theorem analysis_failure_answer_counterexample :
    (runAgent c1Env 10 "q" "schema" "groq" []).map
        (fun p => (p.1.error, p.1.answer, p.2.sqlCalls)) =
      some (some "Query analysis failed: API down",
        "Sorry, the query could not be processed.", 0) ∧
    "Sorry, the query could not be processed." ≠ "" := by
  exact ⟨by rfl, by decide⟩

/-- C1 (amended): when planning generation or parsing fails, no query
is ever executed, the accumulators stay empty and a truthy `error` is
set and survives to the final state — but the run still proceeds to
answer synthesis: a successful answer call leaves its text as the
final answer (with the analysis error still set), and only a failing
answer call ends with an empty answer (with the answer error set). -/
theorem analysis_failure_run (env : Env) (q sc prov : String) (hist : List Message)
    (fuel : Nat) (e : String)
    (hfail : planFailure env.analyzeGen = some e) (hfuel : 3 ≤ fuel) :
    (runAgent env fuel q sc prov hist).map
        (fun p => (p.2.sqlCalls, p.2.fixCalls, p.2.vizGenCalls, p.2.vizExecCalls,
          p.1.sql_queries, p.1.all_query_results, p.1.visualizations,
          truthyOptStr p.1.error)) =
      some (0, 0, 0, 0, [], [], [], true) ∧
    (∀ a, env.answerGen = .ok a →
      (runAgent env fuel q sc prov hist).map (fun p => (p.1.answer, p.1.error)) =
        some (a, some ("Query analysis failed: " ++ e))) ∧
    (∀ e2, env.answerGen = .error e2 →
      (runAgent env fuel q sc prov hist).map (fun p => (p.1.answer, p.1.error)) =
        some ("", some ("Answer generation failed: " ++ e2))) := by
  obtain ⟨k, rfl⟩ : ∃ k, fuel = k + 3 := ⟨fuel - 3, by omega⟩
  have hne : ∀ x y : String,
      truthyOptStr (some (x ++ y)) = true ∨ x = "" := by
    intro x y
    by_cases hx : x = ""
    · exact Or.inr hx
    · left
      simp only [truthyOptStr, truthyStr, Bool.not_eq_true']
      simp only [beq_eq_false_iff_ne, ne_eq]
      exact append_ne_empty_left _ _ hx
  have hneQ : ∀ y : String,
      truthyOptStr (some ("Query analysis failed: " ++ y)) = true := by
    intro y
    rcases hne "Query analysis failed: " y with h | h
    · exact h
    · simp at h
  have hneA : ∀ y : String,
      truthyOptStr (some ("Answer generation failed: " ++ y)) = true := by
    intro y
    rcases hne "Answer generation failed: " y with h | h
    · exact h
    · simp at h
  have hcases : (env.analyzeGen = .error e) ∨
      (∃ r, env.analyzeGen = .ok r ∧ _parse_llm_json r = .error e) := by
    cases hgen : env.analyzeGen with
    | error e0 =>
      left
      have : e0 = e := by simpa [planFailure, hgen] using hfail
      rw [← this]
    | ok r =>
      refine Or.inr ⟨r, rfl, ?_⟩
      cases hpr : _parse_llm_json r with
      | ok j => simp [planFailure, hgen, hpr] at hfail
      | error pe =>
        have : pe = e := by simpa [planFailure, hgen, hpr] using hfail
        rw [← this]
  rcases hcases with hgen | ⟨r, hgen, hp⟩
  · refine ⟨?_, ?_, ?_⟩
    · cases hans : env.answerGen with
      | ok a =>
        simp only [runAgent, initialState, stats0, runLoop, stepNode, nextNode,
          analyze_query_node, analyzeFail, route_after_analysis,
          generate_answer_node, hgen, hans, truthyStr, truthyOptRows]
        simp [hneQ]
      | error e2 =>
        simp only [runAgent, initialState, stats0, runLoop, stepNode, nextNode,
          analyze_query_node, analyzeFail, route_after_analysis,
          generate_answer_node, hgen, hans, truthyStr, truthyOptRows]
        simp [hneA]
    · intro a hans
      simp only [runAgent, initialState, stats0, runLoop, stepNode, nextNode,
        analyze_query_node, analyzeFail, route_after_analysis,
        generate_answer_node, hgen, hans, truthyStr, truthyOptRows]
      simp
    · intro e2 hans
      simp only [runAgent, initialState, stats0, runLoop, stepNode, nextNode,
        analyze_query_node, analyzeFail, route_after_analysis,
        generate_answer_node, hgen, hans, truthyStr, truthyOptRows]
      simp
  · refine ⟨?_, ?_, ?_⟩
    · cases hans : env.answerGen with
      | ok a =>
        simp only [runAgent, initialState, stats0, runLoop, stepNode, nextNode,
          analyze_query_node, analyzeFail, route_after_analysis,
          generate_answer_node, hgen, hp, hans, truthyStr, truthyOptRows]
        simp [hneQ]
      | error e2 =>
        simp only [runAgent, initialState, stats0, runLoop, stepNode, nextNode,
          analyze_query_node, analyzeFail, route_after_analysis,
          generate_answer_node, hgen, hp, hans, truthyStr, truthyOptRows]
        simp [hneA]
    · intro a hans
      simp only [runAgent, initialState, stats0, runLoop, stepNode, nextNode,
        analyze_query_node, analyzeFail, route_after_analysis,
        generate_answer_node, hgen, hp, hans, truthyStr, truthyOptRows]
      simp
    · intro e2 hans
      simp only [runAgent, initialState, stats0, runLoop, stepNode, nextNode,
        analyze_query_node, analyzeFail, route_after_analysis,
        generate_answer_node, hgen, hp, hans, truthyStr, truthyOptRows]
      simp

/-- C1 witness: the amended behaviour at the concrete failing
environment. -/
theorem analysis_failure_run_witness :
    (runAgent c1Env 10 "q" "schema" "groq" []).map
        (fun p => (p.2.sqlCalls, p.2.fixCalls, p.2.vizGenCalls, p.2.vizExecCalls,
          p.1.sql_queries, p.1.all_query_results, p.1.visualizations,
          truthyOptStr p.1.error)) =
      some (0, 0, 0, 0, [], [], [], true) := by
  exact (analysis_failure_run c1Env "q" "schema" "groq" [] 10 "API down" rfl
    (by omega)).1

/-- C3: a planning reply classified conversational (no steps, direct
answer supplied) terminates the workflow with exactly that answer and
empty query/result/visualization lists, and no SQL, visualization or
answer-synthesis call is ever made. -/
theorem conversational_run (env : Env) (q sc prov : String) (hist : List Message)
    (fuel : Nat) (r : String) (plan : Json) (ans : String)
    (hgen : env.analyzeGen = .ok r)
    (hparse : _parse_llm_json r = .ok plan)
    (hsteps : plan.getD "steps" (.arr []) = .arr [])
    (hca : plan.pyGet "conversational_answer" = some (.str ans))
    (hans : ans ≠ "")
    (hfuel : 3 ≤ fuel) :
    (runAgent env fuel q sc prov hist).map
        (fun p => (p.1.answer, p.1.sql_queries, p.1.all_query_results,
          p.1.visualizations, p.1.error, p.2.sqlCalls, p.2.answerCalls,
          p.2.vizGenCalls, p.2.vizExecCalls, p.2.fixCalls)) =
      some (ans, [], [], [], none, 0, 0, 0, 0, 0) := by
  obtain ⟨k, rfl⟩ : ∃ k, fuel = k + 3 := ⟨fuel - 3, by omega⟩
  have htr : truthyStr ans = true := by simp [truthyStr, hans]
  rcases plan with _ | b | lx | sp | l | fields
  · exact absurd hca (by simp [Json.pyGet])
  · exact absurd hca (by simp [Json.pyGet])
  · exact absurd hca (by simp [Json.pyGet])
  · exact absurd hca (by simp [Json.pyGet])
  · exact absurd hca (by simp [Json.pyGet])
  · simp only [runAgent, initialState, stats0, runLoop, stepNode, nextNode,
      analyze_query_node, route_after_analysis, generate_answer_node,
      hgen, hparse, hsteps, hca, truthyOptRows, Json.truthy, Json.pyStrOf, htr]
    simp [Json.truthy, truthyStr, hans, truthyOptRows, Json.pyStrOf]

/-- C3 witness: the conversational behaviour at a concrete
environment. -/
theorem conversational_run_witness :
    (runAgent c3Env 10 "who are you" "schema" "groq" []).map
        (fun p => (p.1.answer, p.1.sql_queries, p.1.all_query_results,
          p.1.visualizations, p.1.error, p.2.sqlCalls, p.2.answerCalls,
          p.2.vizGenCalls, p.2.vizExecCalls, p.2.fixCalls)) =
      some ("I am a data assistant.", [], [], [], none, 0, 0, 0, 0, 0) := by
  exact conversational_run c3Env "who are you" "schema" "groq" [] 10
    "\x7b\"steps\": [], \"reasoning\": \"conv\", \"conversational_answer\": \"I am a data assistant.\"\x7d"
    (Json.obj [("steps", Json.arr []), ("reasoning", Json.str "conv"),
      ("conversational_answer", Json.str "I am a data assistant.")])
    "I am a data assistant." rfl (by rfl) (by rfl) (by rfl) (by decide) (by omega)

/-- C5: the failing input for the fatal-fix-failure claim.  With a
one-step plan whose query always fails and a repair model that always
raises, the graph returns from `FixingQuery` to `ExecutingQuery`
unconditionally (`should_continue` is never consulted): after the
first failed repair the engine is still called three more times (four
executions, three failed repair generations) and the run continues to
answer synthesis, producing an answer — it does not stop. -/
theorem fix_failure_run_continues :
    (runAgent c5Env 30 "count" "schema" "groq" []).map
        (fun p => (p.2.sqlCalls, p.2.fixCalls, p.2.answerCalls, p.2.vizGenCalls,
          p.1.answer, p.1.retries)) =
      some (4, 3, 1, 0, "No data was available.", 4) := by
  rfl

end ClrInsights
